import Mathlib

/-!
Verification of the CCValidator engine (src/script.js) of KE1-CC-CHECKER.

The JavaScript class CCValidator is shallowly embedded: every method
becomes a total Lean function over Strings, Lists and Nats, and the
external dependencies of the code are made explicit parameters:
the current clock read by validateExpiration becomes the pair
(curMonth, curYear), and the Math.random draws of simulateStatus become
a Boolean oracle indexed by record position (true = LIVE, drawn with
probability 0.2 in the original).
-/

namespace CCV

/-- Character class [0-9] (codepoints 48 to 57), the class used by the
source regexes and by the \D stripping in cleanCardNumber. -/
def isDigitCh (c : Char) : Bool := 48 ≤ c.toNat && c.toNat ≤ 57

/-- ASCII whitespace recognised by the JavaScript String.trim used on
record segments (space, tab, newline, carriage return, vertical tab,
form feed). -/
def isJsSpace (c : Char) : Bool :=
  c = ' ' || c = '\t' || c = '\n' || c = '\r' || c = '\x0b' || c = '\x0c'

/-- JavaScript String.prototype.trim: drop whitespace from both ends. -/
def trimJS (s : String) : String :=
  ⟨((s.data.dropWhile isJsSpace).reverse.dropWhile isJsSpace).reverse⟩

/-- Numeric value of a digit character. -/
def digitVal (c : Char) : Nat := c.toNat - '0'.toNat

/-- Value of a digit string read most-significant first. -/
def strDigitsVal (l : List Char) : Nat :=
  l.foldl (fun a c => 10 * a + digitVal c) 0

/-- Longest leading digit run of a character list, parsed as a number;
none when the run is empty (the NaN result of JavaScript parseInt). -/
def parseDigitsOpt (l : List Char) : Option Int :=
  let ds := l.takeWhile isDigitCh
  if ds.isEmpty then none else some (strDigitsVal ds)

/-- JavaScript parseInt(s, 10): skip leading whitespace, accept one
optional sign, parse the longest leading digit run, NaN (none) when no
digit is found. -/
def parseIntJS (s : String) : Option Int :=
  match s.data.dropWhile isJsSpace with
  | [] => none
  | c :: rest =>
      if c = '+' then parseDigitsOpt rest
      else if c = '-' then (parseDigitsOpt rest).map Int.neg
      else parseDigitsOpt (c :: rest)

/-- Decimal digit-width of a bound, String(start).length in the source. -/
def decimalWidth (n : Nat) : Nat := (Nat.repr n).length

/-- One card record extracted from a pipe-delimited line
(extractCardData's result object). -/
structure CardRecord where
  number : String
  month : String
  year : String
  cvv : String
deriving DecidableEq, Repr

/-- One entry of this.cardPatterns: detection regex (embedded as a
Boolean test), BIN ranges (none when the field is absent, as on the
unknown sentinel), accepted lengths, accepted CVV lengths, display
name. -/
structure CardInfo where
  pattern : String → Bool
  binRanges : Option (List (Nat × Nat))
  lengths : List Nat
  cvvLength : List Nat
  name : String

/-- The validation result object of validateCard; fields that a given
branch of the source does not set are none. -/
structure Verdict where
  valid : Bool
  type : Option String := none
  cardName : Option String := none
  reason : Option String := none
  expMonth : Option Int := none
  expYear : Option Int := none
deriving DecidableEq, Repr

/-- Result object of validateExpiration: either a failure with a reason
or a success carrying the integer month and the 4-digit year. -/
inductive ExpResult where
  | invalid (reason : String)
  | valid (month year : Int)
deriving DecidableEq, Repr

/-- Regex ^4[0-9]{12}(?:[0-9]{3})?$ of the visa entry. -/
def visaPattern (s : String) : Bool :=
  match s.data with
  | '4' :: rest => (rest.length = 12 || rest.length = 15) && rest.all isDigitCh
  | _ => false

/-- Alternation 2[2-9][0-9] | [3-6][0-9]{2} | 7[01][0-9] | 720 inside the
mastercard regex (three digits following the leading 2). -/
def mcMid (a b c : Char) : Bool :=
  (a = '2' && ('2' ≤ b && b ≤ '9') && isDigitCh c) ||
  (('3' ≤ a && a ≤ '6') && isDigitCh b && isDigitCh c) ||
  (a = '7' && (b = '0' || b = '1') && isDigitCh c) ||
  (a = '7' && b = '2' && c = '0')

/-- Regex ^(5[1-5][0-9]{14}|2(2[2-9][0-9]|[3-6][0-9]{2}|7[01][0-9]|720)[0-9]{12})$
of the mastercard entry. -/
def mastercardPattern (s : String) : Bool :=
  match s.data with
  | '5' :: c :: rest =>
      ('1' ≤ c && c ≤ '5') && rest.length = 14 && rest.all isDigitCh
  | '2' :: a :: b :: c :: rest =>
      mcMid a b c && rest.length = 12 && rest.all isDigitCh
  | _ => false

/-- Regex ^3[47][0-9]{13}$ of the amex entry. -/
def amexPattern (s : String) : Bool :=
  match s.data with
  | '3' :: c :: rest => (c = '4' || c = '7') && rest.length = 13 && rest.all isDigitCh
  | _ => false

/-- Regex ^6(?:011|4[4-9][0-9]|5[0-9]{2})[0-9]{12}$ of the discover entry. -/
def discoverPattern (s : String) : Bool :=
  match s.data with
  | '6' :: a :: b :: c :: rest =>
      ((a = '0' && b = '1' && c = '1') ||
       (a = '4' && ('4' ≤ b && b ≤ '9') && isDigitCh c) ||
       (a = '5' && isDigitCh b && isDigitCh c)) &&
      rest.length = 12 && rest.all isDigitCh
  | _ => false

/-- Regex ^3(?:0[0-5]|[68][0-9])[0-9]{11,13}$ of the diners entry. -/
def dinersPattern (s : String) : Bool :=
  match s.data with
  | '3' :: a :: b :: rest =>
      ((a = '0' && ('0' ≤ b && b ≤ '5')) || ((a = '6' || a = '8') && isDigitCh b)) &&
      (11 ≤ rest.length && rest.length ≤ 13) && rest.all isDigitCh
  | _ => false

/-- Regex ^(?:2131|1800|35[0-9]{3})[0-9]{11,13}$ of the jcb entry. -/
def jcbPattern (s : String) : Bool :=
  match s.data with
  | '2' :: '1' :: '3' :: '1' :: rest =>
      (11 ≤ rest.length && rest.length ≤ 13) && rest.all isDigitCh
  | '1' :: '8' :: '0' :: '0' :: rest =>
      (11 ≤ rest.length && rest.length ≤ 13) && rest.all isDigitCh
  | '3' :: '5' :: a :: b :: c :: rest =>
      isDigitCh a && isDigitCh b && isDigitCh c &&
      (11 ≤ rest.length && rest.length ≤ 13) && rest.all isDigitCh
  | _ => false

/-- Regex ^62[0-9]{14,17}$ of the unionpay entry. -/
def unionpayPattern (s : String) : Bool :=
  match s.data with
  | '6' :: '2' :: rest => (14 ≤ rest.length && rest.length ≤ 17) && rest.all isDigitCh
  | _ => false

/-- Head alternation (5018|5020|5038|5893|6304|6759|676[1-3]) of the
maestro regex. -/
def maestroHead (a b c d : Char) : Bool :=
  (a = '5' && b = '0' && c = '1' && d = '8') ||
  (a = '5' && b = '0' && c = '2' && d = '0') ||
  (a = '5' && b = '0' && c = '3' && d = '8') ||
  (a = '5' && b = '8' && c = '9' && d = '3') ||
  (a = '6' && b = '3' && c = '0' && d = '4') ||
  (a = '6' && b = '7' && c = '5' && d = '9') ||
  (a = '6' && b = '7' && c = '6' && ('1' ≤ d && d ≤ '3'))

/-- Regex ^(5018|5020|5038|5893|6304|6759|676[1-3])[0-9]{8,15}$ of the
maestro entry. -/
def maestroPattern (s : String) : Bool :=
  match s.data with
  | a :: b :: c :: d :: rest =>
      maestroHead a b c d && (8 ≤ rest.length && rest.length ≤ 15) && rest.all isDigitCh
  | _ => false

/-- The registry this.cardPatterns, in object-literal (iteration)
order. -/
def cardPatterns : List (String × CardInfo) :=
  [ ("visa",
     { pattern := visaPattern, binRanges := some [(4, 4)],
       lengths := [13, 16, 19], cvvLength := [3], name := "Visa" }),
    ("mastercard",
     { pattern := mastercardPattern, binRanges := some [(51, 55), (2221, 2720)],
       lengths := [16], cvvLength := [3], name := "Mastercard" }),
    ("amex",
     { pattern := amexPattern, binRanges := some [(34, 34), (37, 37)],
       lengths := [15], cvvLength := [4], name := "American Express" }),
    ("discover",
     { pattern := discoverPattern, binRanges := some [(6011, 6011), (644, 649), (65, 65)],
       lengths := [16, 17, 18, 19], cvvLength := [3], name := "Discover" }),
    ("diners",
     { pattern := dinersPattern, binRanges := some [(300, 305), (36, 36), (38, 39)],
       lengths := [14, 15, 16], cvvLength := [3], name := "Diners Club" }),
    ("jcb",
     { pattern := jcbPattern, binRanges := some [(3528, 3589), (2131, 2131), (1800, 1800)],
       lengths := [15, 16, 17, 18, 19], cvvLength := [3], name := "JCB" }),
    ("unionpay",
     { pattern := unionpayPattern, binRanges := some [(62, 62)],
       lengths := [16, 17, 18, 19], cvvLength := [3], name := "UnionPay" }),
    ("maestro",
     { pattern := maestroPattern,
       binRanges := some [(5018, 5018), (5020, 5020), (5038, 5038), (6304, 6304), (6759, 6759)],
       lengths := [12, 13, 14, 15, 16, 17, 18, 19], cvvLength := [3], name := "Maestro" }) ]

/-- The unknown sentinel returned by detectCardType when no pattern
matches: type "unknown", name "Unknown", cvvLength [3], no binRanges
and no lengths fields. -/
def unknownInfo : CardInfo :=
  { pattern := fun _ => false, binRanges := none, lengths := [],
    cvvLength := [3], name := "Unknown" }

/-- String split on the pipe character, at the character-list level
(split("|") of JavaScript: one possibly empty segment per separator
gap, never an empty list). -/
def splitOnPipe : List Char → List (List Char)
  | [] => [[]]
  | c :: rest =>
      match splitOnPipe rest with
      | [] => [[c]]
      | h :: t => if c = '|' then [] :: h :: t else (c :: h) :: t

/-- extractCardData: split the line on the pipe character, trim every
segment, default missing segments to the empty string. -/
def extractCardData (line : String) : CardRecord :=
  let parts := (splitOnPipe line.data).map (fun l => trimJS ⟨l⟩)
  { number := parts.getD 0 "", month := parts.getD 1 "",
    year := parts.getD 2 "", cvv := parts.getD 3 "" }

/-- cleanCardNumber: remove every non-digit character (replace(\D, "")). -/
def cleanCardNumber (s : String) : String := ⟨s.data.filter isDigitCh⟩

/-- validateLength: cleaned length between 12 and 19 inclusive. -/
def validateLength (s : String) : Bool := 12 ≤ s.length && s.length ≤ 19

/-- Digit value of one character of the card number, none when the
character is not a digit (the NaN of JavaScript Number on a non-digit,
which poisons the whole Luhn sum). -/
def charDigit (c : Char) : Option Nat :=
  if isDigitCh c then some (digitVal c) else none

/-- The right-to-left accumulation loop of luhnCheck, applied to the
reversed digit list; the Boolean is the isSecond flag, false at the
rightmost digit. -/
def luhnLoop : List Nat → Bool → Nat
  | [], _ => 0
  | d :: rest, isSecond =>
      (if isSecond then (if 2 * d > 9 then 2 * d - 9 else 2 * d) else d) +
        luhnLoop rest (!isSecond)

/-- luhnCheck: false outside length 12..19, false when any character is
not a digit (NaN poisoning), otherwise the mod-10 test of the weighted
sum. -/
def luhnCheck (s : String) : Bool :=
  if s.length < 12 || s.length > 19 then false
  else
    match s.data.mapM charDigit with
    | none => false
    | some ds => luhnLoop ds.reverse false % 10 = 0

/-- detectCardType: first registry entry whose pattern matches, else the
unknown sentinel. -/
def detectCardType (n : String) : String × CardInfo :=
  match cardPatterns.find? (fun p => p.2.pattern n) with
  | some p => p
  | none => ("unknown", unknownInfo)

/-- validateBIN: pass when the profile has no binRanges field; otherwise
pass when some (start, end) pair contains the parsed prefix of
digit-width String(start).length. -/
def validateBIN (cardNumber : String) (info : CardInfo) : Bool :=
  match info.binRanges with
  | none => true
  | some ranges =>
      ranges.any (fun pr =>
        match parseIntJS ⟨cardNumber.data.take (decimalWidth pr.1)⟩ with
        | none => false
        | some p => decide ((pr.1 : Int) ≤ p ∧ p ≤ (pr.2 : Int)))

/-- Date comparison tail of validateExpiration, run once month and year
have been parsed and normalized. -/
def expCompare (curMonth curYear : Int) (monthNum fullYear : Int) : ExpResult :=
  if fullYear < curYear then .invalid "Card expired"
  else if fullYear = curYear ∧ monthNum < curMonth then .invalid "Card expired"
  else if fullYear > curYear + 10 then .invalid "Expiration too far in future"
  else .valid monthNum fullYear

/-- validateExpiration, with the current clock (new Date()) passed
explicitly as curMonth (1..12) and curYear. -/
def validateExpiration (curMonth curYear : Int) (month year : String) : ExpResult :=
  if month = "" ∨ year = "" then .invalid "Missing date components"
  else
    match parseIntJS month with
    | none => .invalid "Invalid month"
    | some monthNum =>
        if monthNum < 1 ∨ monthNum > 12 then .invalid "Invalid month"
        else
          match parseIntJS year with
          | none => .invalid "Invalid year format"
          | some y =>
              if year.length = 2 then expCompare curMonth curYear monthNum (2000 + y)
              else if year.length ≠ 4 then .invalid "Year must be 2 or 4 digits"
              else expCompare curMonth curYear monthNum y

/-- validateCVV: non-empty, length in the profile's cvvLength list, and
digits only (regex ^\d+$). -/
def validateCVV (cvv : String) (info : CardInfo) : Bool :=
  if cvv = "" then false
  else info.cvvLength.contains cvv.length && cvv.data.all isDigitCh

/-- Regex ^(.)\1+$: a first character followed by one or more copies of
it (so total length at least 2). -/
def matchesRepeatOne (l : List Char) : Bool :=
  match l with
  | c :: d :: rest => (d :: rest).all (fun x => x = c)
  | _ => false

/-- Backreference repetition \1* over the 2-character block (a, b). -/
def tiles (a b : Char) : List Char → Bool
  | [] => true
  | [_] => false
  | x :: y :: rest => x = a && y = b && tiles a b rest

/-- Regex ^(.{2})\1{6,}$: a 2-character block followed by at least six
further copies of itself, covering the whole string. -/
def matchesRepeatTwo (l : List Char) : Bool :=
  match l with
  | a :: b :: rest => decide (12 ≤ rest.length) && tiles a b rest
  | _ => false

/-- validateStructure: reject a repeated single character and a tiled
2-character block, accept everything else. -/
def validateStructure (s : String) : Bool :=
  !(matchesRepeatOne s.data) && !(matchesRepeatTwo s.data)

/-- validateCard: the eight-step orchestrator, with the clock passed
through to validateExpiration. -/
def validateCard (curMonth curYear : Int) (cardData : String) : Verdict :=
  let r := extractCardData cardData
  if r.number = "" then { valid := false, reason := some "Missing card number" }
  else
    let cleanedNumber := cleanCardNumber r.number
    if !validateLength cleanedNumber then
      { valid := false, type := some "unknown", reason := some "Invalid card length" }
    else
      let ti := detectCardType cleanedNumber
      if !validateStructure cleanedNumber then
        { valid := false, type := some ti.1, cardName := some ti.2.name,
          reason := some "Invalid card structure" }
      else if !luhnCheck cleanedNumber then
        { valid := false, type := some ti.1, cardName := some ti.2.name,
          reason := some "Failed Luhn check" }
      else if ti.1 ≠ "unknown" && !validateBIN cleanedNumber ti.2 then
        { valid := false, type := some ti.1, cardName := some ti.2.name,
          reason := some "Invalid BIN/IIN" }
      else
        match validateExpiration curMonth curYear r.month r.year with
        | .invalid why =>
            { valid := false, type := some ti.1, cardName := some ti.2.name,
              reason := some why }
        | .valid m y =>
            if !validateCVV r.cvv ti.2 then
              { valid := false, type := some ti.1, cardName := some ti.2.name,
                reason := some "Invalid CVV" }
            else
              { valid := true, type := some ti.1, cardName := some ti.2.name,
                expMonth := some m, expYear := some y }

/-- this.currentBatch: the mutable statistics object of one batch run. -/
structure BatchState where
  total : Nat
  processed : Nat
  valid : Nat
  live : Nat
  dead : Nat
deriving DecidableEq, Repr

/-- One invocation of resultCallback: the trimmed line, the spread
validation verdict, the simulated status and the progress percentage. -/
structure ResultEntry where
  cardData : String
  verdict : Verdict
  status : String
  progress : Nat
deriving DecidableEq, Repr

/-- The mutable fields of the CCValidator instance that the batch layer
touches. -/
structure ValidatorState where
  isProcessing : Bool
  currentBatch : Option BatchState
deriving DecidableEq, Repr

/-- Whether this.isProcessing is still true when the loop reaches record
index i: stopAt = some k means stopProcessing ran during the suspension
after record k, so the check at the top of iteration k and earlier sees
true and later iterations see false. -/
def aliveAt (stopAt : Option Nat) (i : Nat) : Bool :=
  match stopAt with
  | none => true
  | some k => decide (i ≤ k)

/-- simulateStatus for the record at index i, with the Math.random
draws replaced by the oracle rand (true exactly when the draw is below
0.2). -/
def simulateStatus (rand : Nat → Bool) (i : Nat) : String :=
  if rand i then "LIVE" else "DEAD"

/-- The for-loop of processBatch: walks the remaining records starting
at index i with statistics st, and returns the final statistics, the
list of progressCallback snapshots and the list of resultCallback
payloads, in call order. -/
def runBatch (cm cy : Int) (rand : Nat → Bool) (stopAt : Option Nat) :
    List String → Nat → BatchState → BatchState × List BatchState × List ResultEntry
  | [], _, st => (st, [], [])
  | card :: rest, i, st =>
      if !aliveAt stopAt i then (st, [], [])
      else
        let cardData := trimJS card
        if cardData = "" then
          runBatch cm cy rand stopAt rest (i + 1) { st with processed := st.processed + 1 }
        else
          let validation := validateCard cm cy cardData
          let status := if validation.valid then simulateStatus rand i else "INVALID"
          let st1 :=
            if validation.valid then
              if status = "LIVE" then
                { st with valid := st.valid + 1, live := st.live + 1 }
              else
                { st with valid := st.valid + 1, dead := st.dead + 1 }
            else st
          let st2 := { st1 with processed := st1.processed + 1 }
          let progress := st2.processed * 100 / st2.total
          let out := runBatch cm cy rand stopAt rest (i + 1) st2
          if status = "LIVE" || status = "DEAD" then
            (out.1, st2 :: out.2.1,
             { cardData := cardData, verdict := validation,
               status := status, progress := progress } :: out.2.2)
          else
            (out.1, st2 :: out.2.1, out.2.2)

/-- processBatch: rejected (null, state untouched) when a batch is
already running; otherwise runs the loop from a fresh BatchState with
total = number of records, then clears isProcessing and returns the
final statistics. -/
def processBatch (cm cy : Int) (rand : Nat → Bool) (stopAt : Option Nat)
    (v : ValidatorState) (cards : List String) :
    Option BatchState × ValidatorState × List BatchState × List ResultEntry :=
  if v.isProcessing then (none, v, [], [])
  else
    let init : BatchState :=
      { total := cards.length, processed := 0, valid := 0, live := 0, dead := 0 }
    let out := runBatch cm cy rand stopAt cards 0 init
    (some out.1, { isProcessing := false, currentBatch := some out.1 }, out.2.1, out.2.2)

/-! Specification-side definitions: independent restatements of the
quantities the spec describes, to be compared with the embedded code. -/

/-- Luhn weight of the digit at position i counted from the rightmost
digit (position 0): positions of odd index are doubled, with 9
subtracted when the double exceeds 9. -/
def luhnWeighted (i d : Nat) : Nat :=
  if i % 2 = 1 then (if 2 * d > 9 then 2 * d - 9 else 2 * d) else d

/-- The weighted Luhn digit sum of the spec: scan right to left, weight
each digit by its position parity, add everything up. -/
def luhnSpecSum (ds : List Nat) : Nat :=
  ((ds.reverse.enum).map (fun p => luhnWeighted p.1 p.2)).sum

/-- Digit values of a string, most significant first. -/
def digitsOf (s : String) : List Nat := s.data.map digitVal

/-- The counter relations of one batch: live and dead outcomes
partition the valid records, and valid records are among the processed
ones, which never exceed the declared total. -/
def batchInv (s : BatchState) : Prop :=
  s.live + s.dead = s.valid ∧ s.valid ≤ s.processed ∧ s.processed ≤ s.total

/-! Helper lemmas. -/

theorem not_decide_mod_two (n : Nat) :
    (!decide (n % 2 = 1)) = decide ((n + 1) % 2 = 1) := by
  by_cases h : n % 2 = 1
  · have h2 : (n + 1) % 2 = 0 := by omega
    simp [h, h2]
  · have h2 : (n + 1) % 2 = 1 := by omega
    simp [h, h2]

theorem luhnLoop_eq_enumFrom (l : List Nat) :
    ∀ n : Nat, luhnLoop l (decide (n % 2 = 1)) =
      ((l.enumFrom n).map (fun p => luhnWeighted p.1 p.2)).sum := by
  induction l with
  | nil => intro n; simp [luhnLoop]
  | cons d rest ih =>
      intro n
      rw [List.enumFrom_cons, List.map_cons, List.sum_cons, ← ih (n + 1),
        ← not_decide_mod_two]
      by_cases h : n % 2 = 1 <;> simp [luhnLoop, luhnWeighted, h]

theorem luhnLoop_eq_spec (ds : List Nat) :
    luhnLoop ds.reverse false = luhnSpecSum ds := by
  have h := luhnLoop_eq_enumFrom ds.reverse 0
  simpa [luhnSpecSum, List.enum] using h

theorem mapM_charDigit (l : List Char) (h : l.all isDigitCh = true) :
    l.mapM charDigit = some (l.map digitVal) := by
  induction l with
  | nil => rfl
  | cons c t ih =>
      simp only [List.all_cons, Bool.and_eq_true] at h
      rw [List.mapM_cons, ih h.2]
      simp [charDigit, h.1]

theorem length_flatten_replicate (k : Nat) (a b : Char) :
    ((List.replicate k [a, b]).flatten).length = 2 * k := by
  induction k with
  | zero => rfl
  | succ k ih =>
      rw [List.replicate_succ, List.flatten_cons, List.length_append, ih]
      simp; omega

theorem matchesRepeatOne_iff (l : List Char) :
    matchesRepeatOne l = true ↔ ∃ c n, 2 ≤ n ∧ l = List.replicate n c := by
  constructor
  · intro h
    rcases l with _ | ⟨c, _ | ⟨d, rest⟩⟩
    · simp [matchesRepeatOne] at h
    · simp [matchesRepeatOne] at h
    · refine ⟨c, (c :: d :: rest).length, by simp, ?_⟩
      rw [List.eq_replicate_iff]
      refine ⟨rfl, ?_⟩
      intro x hx
      simp only [matchesRepeatOne, List.all_eq_true, decide_eq_true_eq] at h
      rcases List.mem_cons.mp hx with hx | hx
      · exact hx
      · exact h x hx
  · rintro ⟨c, n, hn, rfl⟩
    obtain ⟨m, rfl⟩ : ∃ m, n = m + 2 := ⟨n - 2, by omega⟩
    simp [List.replicate_succ, matchesRepeatOne, List.all_eq_true, List.mem_replicate]

theorem tiles_of_flatten (a b : Char) (k : Nat) :
    tiles a b ((List.replicate k [a, b]).flatten) = true := by
  induction k with
  | zero => rfl
  | succ k ih =>
      rw [List.replicate_succ, List.flatten_cons]
      show tiles a b (a :: b :: _) = true
      simp [tiles, ih]

theorem tiles_imp_flatten (a b : Char) :
    ∀ (n : Nat) (l : List Char), l.length ≤ n → tiles a b l = true →
      ∃ k, l = (List.replicate k [a, b]).flatten := by
  intro n
  induction n with
  | zero =>
      intro l hl _
      have : l = [] := List.eq_nil_of_length_eq_zero (by omega)
      exact ⟨0, by simp [this]⟩
  | succ n ih =>
      intro l hl h
      rcases l with _ | ⟨x, _ | ⟨y, rest⟩⟩
      · exact ⟨0, rfl⟩
      · simp [tiles] at h
      · simp only [tiles, Bool.and_eq_true, decide_eq_true_eq] at h
        obtain ⟨⟨rfl, rfl⟩, ht⟩ := h
        obtain ⟨k, hk⟩ := ih rest (by simp at hl; omega) ht
        exact ⟨k + 1, by simp [List.replicate_succ, hk]⟩

theorem tiles_iff (a b : Char) (l : List Char) :
    tiles a b l = true ↔ ∃ k, l = (List.replicate k [a, b]).flatten := by
  refine ⟨tiles_imp_flatten a b l.length l le_rfl, ?_⟩
  rintro ⟨k, rfl⟩
  exact tiles_of_flatten a b k

theorem matchesRepeatTwo_iff (l : List Char) :
    matchesRepeatTwo l = true ↔
      ∃ a b k, 6 ≤ k ∧ l = (List.replicate (k + 1) [a, b]).flatten := by
  constructor
  · intro h
    rcases l with _ | ⟨a, _ | ⟨b, rest⟩⟩
    · simp [matchesRepeatTwo] at h
    · simp [matchesRepeatTwo] at h
    · simp only [matchesRepeatTwo, Bool.and_eq_true, decide_eq_true_eq] at h
      obtain ⟨hlen, ht⟩ := h
      obtain ⟨k, rfl⟩ := (tiles_iff a b rest).mp ht
      rw [length_flatten_replicate] at hlen
      refine ⟨a, b, k, by omega, ?_⟩
      simp [List.replicate_succ]
  · rintro ⟨a, b, k, hk, rfl⟩
    have he : (List.replicate (k + 1) [a, b]).flatten =
        a :: b :: (List.replicate k [a, b]).flatten := by
      simp [List.replicate_succ]
    rw [he]
    simp only [matchesRepeatTwo, Bool.and_eq_true, decide_eq_true_eq]
    exact ⟨by rw [length_flatten_replicate]; omega, tiles_of_flatten a b k⟩

theorem expCompare_spec (cm cy m fy : Int) :
    (expCompare cm cy m fy = .invalid "Card expired" ↔ (fy < cy ∨ (fy = cy ∧ m < cm))) ∧
    (expCompare cm cy m fy = .invalid "Expiration too far in future" ↔ fy > cy + 10) ∧
    (¬(fy < cy ∨ (fy = cy ∧ m < cm)) → ¬(fy > cy + 10) →
       expCompare cm cy m fy = .valid m fy) := by
  have hne : ("Card expired" : String) ≠ "Expiration too far in future" := by decide
  unfold expCompare
  by_cases h1 : fy < cy
  · rw [if_pos h1]
    refine ⟨by simp; omega, ?_, ?_⟩
    · constructor
      · intro h
        simp only [ExpResult.invalid.injEq] at h
        exact absurd h hne
      · intro h
        exfalso
        omega
    · intro hx _
      exact absurd (Or.inl h1) hx
  · rw [if_neg h1]
    by_cases h2 : fy = cy ∧ m < cm
    · rw [if_pos h2]
      refine ⟨by simp; omega, ?_, ?_⟩
      · constructor
        · intro h
          simp only [ExpResult.invalid.injEq] at h
          exact absurd h hne
        · intro h
          exfalso
          omega
      · intro hx _
        exact absurd (Or.inr h2) hx
    · rw [if_neg h2]
      by_cases h3 : fy > cy + 10
      · rw [if_pos h3]
        refine ⟨?_, by simp; omega, fun _ hy => absurd h3 hy⟩
        constructor
        · intro h
          simp only [ExpResult.invalid.injEq] at h
          exact absurd h hne.symm
        · intro h
          exfalso
          omega
      · rw [if_neg h3]
        refine ⟨?_, ?_, fun _ _ => rfl⟩
        · simp
          omega
        · simp
          omega

theorem validateExpiration_eq_expCompare (cm cy : Int) (month year : String) (m y : Int)
    (h1 : month ≠ "") (h2 : year ≠ "") (hm : parseIntJS month = some m)
    (hm1 : 1 ≤ m) (hm2 : m ≤ 12) (hy : parseIntJS year = some y)
    (hlen : year.length = 2 ∨ year.length = 4) :
    validateExpiration cm cy month year =
      expCompare cm cy m (if year.length = 2 then 2000 + y else y) := by
  rw [validateExpiration, if_neg (by tauto)]
  rw [hm]
  show (if m < 1 ∨ m > 12 then ExpResult.invalid "Invalid month" else _) = _
  rw [if_neg (by omega)]
  rw [hy]
  show (if year.length = 2 then _ else _) = _
  rcases hlen with hl | hl
  · rw [if_pos hl, if_pos hl]
  · have hne2 : year.length ≠ 2 := by omega
    rw [if_neg hne2, if_neg hne2, if_neg (by omega)]

theorem digit_not_space (c : Char) (h : isDigitCh c = true) : isJsSpace c = false := by
  simp only [isDigitCh, Bool.and_eq_true, decide_eq_true_eq] at h
  by_contra hs
  rw [Bool.not_eq_false] at hs
  simp only [isJsSpace, Bool.or_eq_true, decide_eq_true_eq] at hs
  rcases hs with ((((hs | hs) | hs) | hs) | hs) | hs <;> rw [hs] at h <;>
    exact absurd h (by decide)

theorem digit_ne_sign (c : Char) (h : isDigitCh c = true) : c ≠ '+' ∧ c ≠ '-' := by
  constructor <;> intro he <;> rw [he] at h <;> exact absurd h (by decide)

theorem parseIntJS_digits (l : List Char) (h1 : l ≠ []) (h2 : l.all isDigitCh = true) :
    parseIntJS ⟨l⟩ = some ((strDigitsVal l : Nat) : Int) := by
  rcases l with _ | ⟨c, t⟩
  · exact absurd rfl h1
  · have hc : isDigitCh c = true := by
      rw [List.all_cons, Bool.and_eq_true] at h2
      exact h2.1
    rw [parseIntJS]
    show (match (c :: t).dropWhile isJsSpace with
      | [] => none
      | c :: rest =>
          if c = '+' then parseDigitsOpt rest
          else if c = '-' then (parseDigitsOpt rest).map Int.neg
          else parseDigitsOpt (c :: rest)) = _
    rw [List.dropWhile_cons, if_neg (by simp [digit_not_space c hc])]
    show (if c = '+' then _ else if c = '-' then _ else parseDigitsOpt (c :: t)) = _
    rw [if_neg (digit_ne_sign c hc).1, if_neg (digit_ne_sign c hc).2]
    rw [parseDigitsOpt]
    rw [List.takeWhile_eq_self_iff.mpr (by rw [List.all_eq_true] at h2; exact h2)]
    simp

theorem toDigitsCore_length_ge (b : Nat) :
    ∀ (f n : Nat) (l : List Char), l.length + 1 ≤ (Nat.toDigitsCore b (f + 1) n l).length := by
  intro f
  induction f with
  | zero =>
      intro n l
      show (if n / b = 0 then _ :: l else Nat.toDigitsCore b 0 (n / b) (_ :: l)).length ≥ _
      split <;> simp [Nat.toDigitsCore]
  | succ f ih =>
      intro n l
      show (if n / b = 0 then _ :: l
        else Nat.toDigitsCore b (f + 1) (n / b) (_ :: l)).length ≥ _
      split
      · simp
      · calc l.length + 1 ≤ (l.length + 1) + 1 := by omega
          _ ≤ (Nat.toDigitsCore b (f + 1) (n / b) (Nat.digitChar (n % b) :: l)).length :=
            ih (n / b) (Nat.digitChar (n % b) :: l)

theorem decimalWidth_pos (n : Nat) : 1 ≤ decimalWidth n := by
  have h := toDigitsCore_length_ge 10 n n []
  simpa [decimalWidth, Nat.repr, Nat.toDigits, String.length, List.asString] using h

/-! Claim theorems. -/

/-- Claim C2: for digit-only strings of length 12 to 19, luhnCheck
decides divisibility by 10 of the right-to-left weighted digit sum
(doubling every second digit from the second-from-rightmost and
subtracting 9 when a double exceeds 9); outside that length window it
returns false; and the example 4539148803436467 passes. -/
theorem luhnCheck_spec :
    (∀ s : String, s.data.all isDigitCh = true → 12 ≤ s.length → s.length ≤ 19 →
       (luhnCheck s = true ↔ luhnSpecSum (digitsOf s) % 10 = 0)) ∧
    (∀ s : String, s.length < 12 ∨ 19 < s.length → luhnCheck s = false) ∧
    luhnCheck "4539148803436467" = true := by
  refine ⟨?_, ?_, by decide⟩
  · intro s hd h1 h2
    rw [luhnCheck, if_neg (by simp; omega)]
    rw [mapM_charDigit s.data hd]
    show decide (luhnLoop (List.map digitVal s.data).reverse false % 10 = 0) = true ↔ _
    rw [luhnLoop_eq_spec]
    simp [digitsOf]
  · intro s h
    rw [luhnCheck, if_pos (by simp; omega)]

/-- Witness for C2, instantiating the characterization at the spec's
example number. -/
theorem luhnCheck_spec_witness :
    luhnCheck "4539148803436467" = true ↔
      luhnSpecSum (digitsOf "4539148803436467") % 10 = 0 :=
  luhnCheck_spec.1 "4539148803436467" (by decide) (by decide) (by decide)

/-- Claim C7: with a digit-only number long enough for every declared
width, validateBIN passes unconditionally when the profile declares no
BIN ranges, and otherwise passes exactly when some declared (low, high)
pair brackets the numeric value of the prefix whose length is the
decimal digit-width of low. -/
theorem validateBIN_spec (num : String) (info : CardInfo)
    (hd : num.data.all isDigitCh = true) (hnum : num.data ≠ [])
    (_hw : ∀ pr ∈ info.binRanges.getD [], decimalWidth pr.1 ≤ num.length) :
    validateBIN num info = true ↔
      (info.binRanges = none ∨
       ∃ pr ∈ info.binRanges.getD [],
         pr.1 ≤ strDigitsVal (num.data.take (decimalWidth pr.1)) ∧
         strDigitsVal (num.data.take (decimalWidth pr.1)) ≤ pr.2) := by
  rcases hbr : info.binRanges with _ | ranges
  · simp [validateBIN, hbr]
  · have hne : ∀ w : Nat, 1 ≤ w → num.data.take w ≠ [] := by
      intro w hw1 hcon
      rw [List.take_eq_nil_iff] at hcon
      rcases hcon with hcon | hcon
      · omega
      · exact hnum hcon
    have hall : ∀ w : Nat, (num.data.take w).all isDigitCh = true := by
      intro w
      rw [List.all_eq_true] at hd ⊢
      intro x hx
      exact hd x (List.mem_of_mem_take hx)
    have key : ∀ pr : Nat × Nat,
        (match parseIntJS ⟨num.data.take (decimalWidth pr.1)⟩ with
          | none => false
          | some p => decide ((pr.1 : Int) ≤ p ∧ p ≤ (pr.2 : Int))) = true ↔
        (pr.1 ≤ strDigitsVal (num.data.take (decimalWidth pr.1)) ∧
         strDigitsVal (num.data.take (decimalWidth pr.1)) ≤ pr.2) := by
      intro pr
      rw [parseIntJS_digits _ (hne _ (decimalWidth_pos pr.1)) (hall _)]
      simp only [decide_eq_true_eq]
      constructor
      · intro ⟨ha, hb⟩
        exact ⟨by exact_mod_cast ha, by exact_mod_cast hb⟩
      · intro ⟨ha, hb⟩
        exact ⟨by exact_mod_cast ha, by exact_mod_cast hb⟩
    simp only [validateBIN, hbr, List.any_eq_true, Option.getD_some]
    constructor
    · rintro ⟨pr, hpr, hok⟩
      exact Or.inr ⟨pr, hpr, (key pr).mp hok⟩
    · rintro (hcon | ⟨pr, hpr, hok⟩)
      · exact absurd hcon (by simp)
      · exact ⟨pr, hpr, (key pr).mpr hok⟩

/-- Witness for C7: the Mastercard profile accepts 5123456789012345
through its (51, 55) range. -/
theorem validateBIN_spec_witness :
    validateBIN "5123456789012345" (cardPatterns.getD 1 ("", unknownInfo)).2 = true ↔
      ((cardPatterns.getD 1 ("", unknownInfo)).2.binRanges = none ∨
       ∃ pr ∈ (cardPatterns.getD 1 ("", unknownInfo)).2.binRanges.getD [],
         pr.1 ≤ strDigitsVal (("5123456789012345" : String).data.take (decimalWidth pr.1)) ∧
         strDigitsVal (("5123456789012345" : String).data.take (decimalWidth pr.1)) ≤ pr.2) :=
  validateBIN_spec "5123456789012345" (cardPatterns.getD 1 ("", unknownInfo)).2
    (by decide) (by decide) (by decide)

/-- Claim C4: validateExpiration fails when a field is missing, when the
month does not parse to an integer in 1..12, when the year does not
parse, or when the year string length is neither 2 nor 4; a 2-digit
year means 2000 + value; the result is "Card expired" exactly when the
normalized year is before the current year or equal with an earlier
month, "Expiration too far in future" exactly when it exceeds the
current year by more than 10, and otherwise the integer month and the
4-digit year are returned. -/
theorem validateExpiration_spec (cm cy : Int) :
    (∀ month year : String, (month = "" ∨ year = "") →
       validateExpiration cm cy month year = .invalid "Missing date components") ∧
    (∀ month year : String, month ≠ "" → year ≠ "" →
       (parseIntJS month = none ∨ ∃ m, parseIntJS month = some m ∧ (m < 1 ∨ 12 < m)) →
       validateExpiration cm cy month year = .invalid "Invalid month") ∧
    (∀ (month year : String) (m : Int), month ≠ "" → year ≠ "" →
       parseIntJS month = some m → 1 ≤ m → m ≤ 12 → parseIntJS year = none →
       validateExpiration cm cy month year = .invalid "Invalid year format") ∧
    (∀ (month year : String) (m y : Int), month ≠ "" → year ≠ "" →
       parseIntJS month = some m → 1 ≤ m → m ≤ 12 → parseIntJS year = some y →
       year.length ≠ 2 → year.length ≠ 4 →
       validateExpiration cm cy month year = .invalid "Year must be 2 or 4 digits") ∧
    (∀ (month year : String) (m y : Int), month ≠ "" → year ≠ "" →
       parseIntJS month = some m → 1 ≤ m → m ≤ 12 → parseIntJS year = some y →
       (year.length = 2 ∨ year.length = 4) →
       ((validateExpiration cm cy month year = .invalid "Card expired" ↔
           ((if year.length = 2 then 2000 + y else y) < cy ∨
            ((if year.length = 2 then 2000 + y else y) = cy ∧ m < cm))) ∧
        (validateExpiration cm cy month year = .invalid "Expiration too far in future" ↔
           (if year.length = 2 then 2000 + y else y) > cy + 10) ∧
        (¬((if year.length = 2 then 2000 + y else y) < cy ∨
             ((if year.length = 2 then 2000 + y else y) = cy ∧ m < cm)) →
         ¬((if year.length = 2 then 2000 + y else y) > cy + 10) →
         validateExpiration cm cy month year =
           .valid m (if year.length = 2 then 2000 + y else y)))) := by
  refine ⟨?_, ?_, ?_, ?_, ?_⟩
  · intro month year h
    rw [validateExpiration, if_pos h]
  · intro month year h1 h2 h3
    rw [validateExpiration, if_neg (by tauto)]
    rcases h3 with h3 | ⟨m, hm, hb⟩
    · rw [h3]
    · rw [hm]
      show (if m < 1 ∨ m > 12 then ExpResult.invalid "Invalid month" else _) = _
      rw [if_pos (by omega)]
  · intro month year m h1 h2 hm hm1 hm2 hy
    rw [validateExpiration, if_neg (by tauto), hm]
    show (if m < 1 ∨ m > 12 then ExpResult.invalid "Invalid month" else _) = _
    rw [if_neg (by omega), hy]
  · intro month year m y h1 h2 hm hm1 hm2 hy hl2 hl4
    rw [validateExpiration, if_neg (by tauto), hm]
    show (if m < 1 ∨ m > 12 then ExpResult.invalid "Invalid month" else _) = _
    rw [if_neg (by omega), hy]
    show (if year.length = 2 then _ else _) = _
    rw [if_neg hl2, if_pos hl4]
  · intro month year m y h1 h2 hm hm1 hm2 hy hlen
    rw [validateExpiration_eq_expCompare cm cy month year m y h1 h2 hm hm1 hm2 hy hlen]
    exact expCompare_spec cm cy m (if year.length = 2 then 2000 + y else y)

/-- Witness for C4: October 2025 clock, month "01", year "2020" is
reported expired. -/
theorem validateExpiration_spec_witness :
    validateExpiration 10 2025 "01" "2020" = .invalid "Card expired" := by
  have h := ((validateExpiration_spec 10 2025).2.2.2.2 "01" "2020" 1 2020
    (by decide) (by decide) (by decide) (by decide) (by decide) (by decide)
    (by decide)).1
  exact h.mpr (by decide)

/-- Counterexample to C3 as stated: the claim says every
single-character string is rejected by validateStructure, but the code
accepts it (the regex needs a first character plus at least one copy). -/
theorem validateStructure_singleton : validateStructure "1" = true := by decide

/-- Claim C3 (amended): validateStructure rejects a normalized number
exactly when the string is one character repeated at least twice
(length at least 2), or one 2-character block repeated 7 or more times
with no remainder; single-character strings are accepted; and
validating "1111111111111111|12|2030|123" yields reason
"Invalid card structure" before Luhn is consulted. -/
theorem validateStructure_spec :
    (∀ s : String, validateStructure s = false ↔
       ((∃ c n, 2 ≤ n ∧ s.data = List.replicate n c) ∨
        (∃ a b k, 6 ≤ k ∧ s.data = (List.replicate (k + 1) [a, b]).flatten))) ∧
    (∀ cm cy : Int, validateCard cm cy "1111111111111111|12|2030|123" =
       { valid := false, type := some "unknown", cardName := some "Unknown",
         reason := some "Invalid card structure" }) := by
  refine ⟨?_, fun cm cy => rfl⟩
  intro s
  rw [validateStructure, ← matchesRepeatOne_iff, ← matchesRepeatTwo_iff]
  cases matchesRepeatOne s.data <;> cases matchesRepeatTwo s.data <;> simp

theorem validateCard_cases (cm cy : Int) (line : String) :
    (validateCard cm cy line).valid = true ∨
      ((validateCard cm cy line).reason).isSome = true := by
  rw [validateCard]
  repeat' split
  all_goals try simp
  all_goals split_ifs <;> simp

/-- Claim C8: validateCard is total, and every invalid verdict carries a
rejection reason. -/
theorem validateCard_always_reason (cm cy : Int) (line : String) :
    (validateCard cm cy line).valid = false →
      ((validateCard cm cy line).reason).isSome = true := by
  intro h
  rcases validateCard_cases cm cy line with hc | hc
  · rw [hc] at h
    cases h
  · exact hc

/-- Witness for C8: the empty line is rejected and carries a reason. -/
theorem validateCard_always_reason_witness :
    ((validateCard 1 2025 "").reason).isSome = true :=
  validateCard_always_reason 1 2025 "" (by decide)

/-- Counterexample to C9 as stated: the same line validates differently
under two different current dates, because validateExpiration reads the
clock, so validateCard is not a function of its input line alone. -/
theorem validateCard_clock_sensitive :
    validateCard 1 2025 "4111111111111111|01|2026|123" ≠
      validateCard 1 2040 "4111111111111111|01|2026|123" := by decide

/-- Claim C9 (amended): validateCard is a pure, deterministic function
of the parsed record fields and the current clock: under the same
clock, any two lines with equal extracted fields produce equal
verdicts, and no check consults anything else. -/
theorem validateCard_deterministic (cm cy : Int) (l1 l2 : String)
    (h : extractCardData l1 = extractCardData l2) :
    validateCard cm cy l1 = validateCard cm cy l2 := by
  rw [validateCard, validateCard, h]

/-- Witness for C9's amended determinism: a line and its
whitespace-padded variant extract equally and validate equally. -/
theorem validateCard_deterministic_witness :
    validateCard 12 2025 "4111111111111111|12|2030|123" =
      validateCard 12 2025 " 4111111111111111 | 12 | 2030 | 123 " :=
  validateCard_deterministic 12 2025 _ _ (by decide)

/-- The statistics update one non-blank record causes: valid records
bump valid and one of live or dead according to the draw, and every
record bumps processed. -/
def stepRecord (cm cy : Int) (rand : Nat → Bool) (i : Nat) (st : BatchState)
    (cardData : String) : BatchState :=
  let validation := validateCard cm cy cardData
  let st1 :=
    if validation.valid then
      if rand i then { st with valid := st.valid + 1, live := st.live + 1 }
      else { st with valid := st.valid + 1, dead := st.dead + 1 }
    else st
  { st1 with processed := st1.processed + 1 }

theorem stepRecord_processed (cm cy : Int) (rand : Nat → Bool) (i : Nat)
    (st : BatchState) (c : String) :
    (stepRecord cm cy rand i st c).processed = st.processed + 1 := by
  rw [stepRecord]
  split <;> (try split) <;> rfl

theorem stepRecord_total (cm cy : Int) (rand : Nat → Bool) (i : Nat)
    (st : BatchState) (c : String) :
    (stepRecord cm cy rand i st c).total = st.total := by
  rw [stepRecord]
  split <;> (try split) <;> rfl

theorem stepRecord_inv (cm cy : Int) (rand : Nat → Bool) (i : Nat)
    (st : BatchState) (c : String) (h : batchInv st)
    (hle : st.processed + 1 ≤ st.total) :
    batchInv (stepRecord cm cy rand i st c) := by
  obtain ⟨h1, h2, h3⟩ := h
  rw [stepRecord]
  split <;> (try split) <;>
    exact ⟨by simp; omega, by simp; omega, by simp; omega⟩

theorem runBatch_fst_snd (cm cy : Int) (rand : Nat → Bool) (stopAt : Option Nat)
    (card : String) (rest : List String) (i : Nat) (st : BatchState)
    (halive : aliveAt stopAt i = true) (hcard : trimJS card ≠ "") :
    (runBatch cm cy rand stopAt (card :: rest) i st).1 =
      (runBatch cm cy rand stopAt rest (i + 1) (stepRecord cm cy rand i st (trimJS card))).1 ∧
    (runBatch cm cy rand stopAt (card :: rest) i st).2.1 =
      stepRecord cm cy rand i st (trimJS card) ::
        (runBatch cm cy rand stopAt rest (i + 1)
          (stepRecord cm cy rand i st (trimJS card))).2.1 := by
  rw [runBatch]
  simp only [halive, Bool.not_true, if_neg hcard]
  rw [if_neg (by simp)]
  by_cases hv : (validateCard cm cy (trimJS card)).valid = true
  · by_cases hr : rand i = true
    · simp [stepRecord, simulateStatus, hv, hr, apply_ite]
    · simp only [Bool.not_eq_true] at hr
      simp [stepRecord, simulateStatus, hv, hr, apply_ite]
  · simp only [Bool.not_eq_true] at hv
    simp [stepRecord, hv, apply_ite]

theorem chain'_le_range' : ∀ (n a : Nat),
    List.Chain' (fun x y => x ≤ y) (List.range' a n) := by
  intro n
  induction n with
  | zero => intro a; simp
  | succ n ih =>
      intro a
      rcases n with _ | n
      · simp
      · rw [List.range'_succ, List.range'_succ, List.chain'_cons]
        have ih2 := ih (a + 1)
        rw [List.range'_succ] at ih2
        exact ⟨by omega, ih2⟩

theorem runBatch_progress (cm cy : Int) (rand : Nat → Bool) :
    ∀ (cards : List String) (i : Nat) (st : BatchState),
      (∀ c ∈ cards, trimJS c ≠ "") →
      (runBatch cm cy rand none cards i st).1.processed = st.processed + cards.length ∧
      ((runBatch cm cy rand none cards i st).2.1.map (fun s => s.processed) =
        List.range' (st.processed + 1) cards.length) ∧
      (∀ s ∈ (runBatch cm cy rand none cards i st).2.1, s.total = st.total) ∧
      (runBatch cm cy rand none cards i st).1.total = st.total := by
  intro cards
  induction cards with
  | nil => intro i st _; simp [runBatch]
  | cons card rest ih =>
      intro i st h
      obtain ⟨h1, h2⟩ :=
        runBatch_fst_snd cm cy rand none card rest i st rfl (h card (by simp))
      obtain ⟨ih1, ih2, ih3, ih4⟩ :=
        ih (i + 1) (stepRecord cm cy rand i st (trimJS card))
          (fun c hc => h c (by simp [hc]))
      refine ⟨?_, ?_, ?_, ?_⟩
      · rw [h1, ih1, stepRecord_processed]
        simp only [List.length_cons]
        try omega
      · rw [h2, List.map_cons, ih2, stepRecord_processed, List.length_cons,
          List.range'_succ]
      · rw [h2]
        intro s hs
        rcases List.mem_cons.mp hs with hs | hs
        · rw [hs, stepRecord_total]
        · rw [ih3 s hs, stepRecord_total]
      · rw [h1, ih4, stepRecord_total]

theorem runBatch_inv (cm cy : Int) (rand : Nat → Bool) (stopAt : Option Nat) :
    ∀ (cards : List String) (i : Nat) (st : BatchState), batchInv st →
      st.processed + cards.length ≤ st.total →
      batchInv (runBatch cm cy rand stopAt cards i st).1 ∧
      (∀ s ∈ (runBatch cm cy rand stopAt cards i st).2.1, batchInv s) := by
  intro cards
  induction cards with
  | nil => intro i st h _; simpa [runBatch] using h
  | cons card rest ih =>
      intro i st h hle
      simp only [List.length_cons] at hle
      obtain ⟨hA, hB, hC⟩ := h
      by_cases halive : aliveAt stopAt i = true
      · by_cases hblank : trimJS card = ""
        · rw [runBatch]
          simp only [halive, Bool.not_true, hblank, if_neg (by simp : ¬(false = true)),
            if_pos rfl]
          apply ih
          · exact ⟨by simpa using hA, by simp; omega, by simp; omega⟩
          · simp
            omega
        · obtain ⟨h1, h2⟩ :=
            runBatch_fst_snd cm cy rand stopAt card rest i st halive hblank
          have hstep : batchInv (stepRecord cm cy rand i st (trimJS card)) :=
            stepRecord_inv cm cy rand i st (trimJS card) ⟨hA, hB, hC⟩ (by omega)
          obtain ⟨ih1, ih2⟩ :=
            ih (i + 1) (stepRecord cm cy rand i st (trimJS card)) hstep
              (by rw [stepRecord_processed, stepRecord_total]; omega)
          refine ⟨by rw [h1]; exact ih1, ?_⟩
          rw [h2]
          intro s hs
          rcases List.mem_cons.mp hs with hs | hs
          · rw [hs]; exact hstep
          · exact ih2 s hs
      · rw [runBatch]
        simp only [Bool.not_eq_true] at halive
        simp only [halive, Bool.not_false, if_pos rfl]
        exact ⟨⟨hA, hB, hC⟩, by simp⟩

/-- Claim C1: validateCard runs its checks in the fixed order
missing-number, length, type detection, structure, Luhn, BIN (skipped
for unknown networks), expiration, CVV, short-circuiting at the first
failure with exactly that check's reason; and the example line
4111111111111111|13|2030|123 is rejected with the expiration reason
"Invalid month" without the CVV check being reached. -/
theorem validateCard_order (cm cy : Int) (line : String) :
    (((extractCardData line).number = "" →
       validateCard cm cy line =
         { valid := false, reason := some "Missing card number" }) ∧
     ((extractCardData line).number ≠ "" →
      validateLength (cleanCardNumber (extractCardData line).number) = false →
       validateCard cm cy line =
         { valid := false, type := some "unknown",
           reason := some "Invalid card length" }) ∧
     ((extractCardData line).number ≠ "" →
      validateLength (cleanCardNumber (extractCardData line).number) = true →
      validateStructure (cleanCardNumber (extractCardData line).number) = false →
       validateCard cm cy line =
         { valid := false,
           type := some (detectCardType (cleanCardNumber (extractCardData line).number)).1,
           cardName :=
             some (detectCardType (cleanCardNumber (extractCardData line).number)).2.name,
           reason := some "Invalid card structure" }) ∧
     ((extractCardData line).number ≠ "" →
      validateLength (cleanCardNumber (extractCardData line).number) = true →
      validateStructure (cleanCardNumber (extractCardData line).number) = true →
      luhnCheck (cleanCardNumber (extractCardData line).number) = false →
       validateCard cm cy line =
         { valid := false,
           type := some (detectCardType (cleanCardNumber (extractCardData line).number)).1,
           cardName :=
             some (detectCardType (cleanCardNumber (extractCardData line).number)).2.name,
           reason := some "Failed Luhn check" }) ∧
     ((extractCardData line).number ≠ "" →
      validateLength (cleanCardNumber (extractCardData line).number) = true →
      validateStructure (cleanCardNumber (extractCardData line).number) = true →
      luhnCheck (cleanCardNumber (extractCardData line).number) = true →
      (detectCardType (cleanCardNumber (extractCardData line).number)).1 ≠ "unknown" →
      validateBIN (cleanCardNumber (extractCardData line).number)
          (detectCardType (cleanCardNumber (extractCardData line).number)).2 = false →
       validateCard cm cy line =
         { valid := false,
           type := some (detectCardType (cleanCardNumber (extractCardData line).number)).1,
           cardName :=
             some (detectCardType (cleanCardNumber (extractCardData line).number)).2.name,
           reason := some "Invalid BIN/IIN" }) ∧
     (∀ why : String,
      (extractCardData line).number ≠ "" →
      validateLength (cleanCardNumber (extractCardData line).number) = true →
      validateStructure (cleanCardNumber (extractCardData line).number) = true →
      luhnCheck (cleanCardNumber (extractCardData line).number) = true →
      ((detectCardType (cleanCardNumber (extractCardData line).number)).1 = "unknown" ∨
       validateBIN (cleanCardNumber (extractCardData line).number)
          (detectCardType (cleanCardNumber (extractCardData line).number)).2 = true) →
      validateExpiration cm cy (extractCardData line).month (extractCardData line).year =
        .invalid why →
       validateCard cm cy line =
         { valid := false,
           type := some (detectCardType (cleanCardNumber (extractCardData line).number)).1,
           cardName :=
             some (detectCardType (cleanCardNumber (extractCardData line).number)).2.name,
           reason := some why }) ∧
     (∀ m y : Int,
      (extractCardData line).number ≠ "" →
      validateLength (cleanCardNumber (extractCardData line).number) = true →
      validateStructure (cleanCardNumber (extractCardData line).number) = true →
      luhnCheck (cleanCardNumber (extractCardData line).number) = true →
      ((detectCardType (cleanCardNumber (extractCardData line).number)).1 = "unknown" ∨
       validateBIN (cleanCardNumber (extractCardData line).number)
          (detectCardType (cleanCardNumber (extractCardData line).number)).2 = true) →
      validateExpiration cm cy (extractCardData line).month (extractCardData line).year =
        .valid m y →
      validateCVV (extractCardData line).cvv
          (detectCardType (cleanCardNumber (extractCardData line).number)).2 = false →
       validateCard cm cy line =
         { valid := false,
           type := some (detectCardType (cleanCardNumber (extractCardData line).number)).1,
           cardName :=
             some (detectCardType (cleanCardNumber (extractCardData line).number)).2.name,
           reason := some "Invalid CVV" }) ∧
     (∀ m y : Int,
      (extractCardData line).number ≠ "" →
      validateLength (cleanCardNumber (extractCardData line).number) = true →
      validateStructure (cleanCardNumber (extractCardData line).number) = true →
      luhnCheck (cleanCardNumber (extractCardData line).number) = true →
      ((detectCardType (cleanCardNumber (extractCardData line).number)).1 = "unknown" ∨
       validateBIN (cleanCardNumber (extractCardData line).number)
          (detectCardType (cleanCardNumber (extractCardData line).number)).2 = true) →
      validateExpiration cm cy (extractCardData line).month (extractCardData line).year =
        .valid m y →
      validateCVV (extractCardData line).cvv
          (detectCardType (cleanCardNumber (extractCardData line).number)).2 = true →
       validateCard cm cy line =
         { valid := true,
           type := some (detectCardType (cleanCardNumber (extractCardData line).number)).1,
           cardName :=
             some (detectCardType (cleanCardNumber (extractCardData line).number)).2.name,
           expMonth := some m, expYear := some y })) ∧
    validateCard cm cy "4111111111111111|13|2030|123" =
      { valid := false, type := some "visa", cardName := some "Visa",
        reason := some "Invalid month" } := by
  refine ⟨⟨?_, ?_, ?_, ?_, ?_, ?_, ?_, ?_⟩, rfl⟩
  · intro h1
    rw [validateCard, if_pos h1]
  · intro h1 h2
    rw [validateCard, if_neg h1]
    simp only [h2]
    rfl
  · intro h1 h2 h3
    rw [validateCard, if_neg h1]
    simp only [h2, h3]
    rfl
  · intro h1 h2 h3 h4
    rw [validateCard, if_neg h1]
    simp only [h2, h3, h4]
    rfl
  · intro h1 h2 h3 h4 h5 h6
    rw [validateCard, if_neg h1]
    simp only [h2, h3, h4, h6, h5, Bool.not_true, Bool.not_false]
    simp [h5]
  · intro why h1 h2 h3 h4 h5 hexp
    rw [validateCard, if_neg h1]
    simp only [h2, h3, h4, Bool.not_true, Bool.not_false]
    have hbin : (decide ¬(detectCardType (cleanCardNumber (extractCardData line).number)).1 =
        "unknown" &&
        !validateBIN (cleanCardNumber (extractCardData line).number)
          (detectCardType (cleanCardNumber (extractCardData line).number)).2) = false := by
      rcases h5 with h5 | h5 <;> simp [h5]
    simp only [hbin, hexp]
    rfl
  · intro m y h1 h2 h3 h4 h5 hexp hcvv
    rw [validateCard, if_neg h1]
    simp only [h2, h3, h4, Bool.not_true, Bool.not_false]
    have hbin : (decide ¬(detectCardType (cleanCardNumber (extractCardData line).number)).1 =
        "unknown" &&
        !validateBIN (cleanCardNumber (extractCardData line).number)
          (detectCardType (cleanCardNumber (extractCardData line).number)).2) = false := by
      rcases h5 with h5 | h5 <;> simp [h5]
    simp only [hbin, hexp, hcvv]
    rfl
  · intro m y h1 h2 h3 h4 h5 hexp hcvv
    rw [validateCard, if_neg h1]
    simp only [h2, h3, h4, Bool.not_true, Bool.not_false]
    have hbin : (decide ¬(detectCardType (cleanCardNumber (extractCardData line).number)).1 =
        "unknown" &&
        !validateBIN (cleanCardNumber (extractCardData line).number)
          (detectCardType (cleanCardNumber (extractCardData line).number)).2) = false := by
      rcases h5 with h5 | h5 <;> simp [h5]
    simp only [hbin, hexp, hcvv]
    rfl

/-- Witness for C1: the empty line is missing its card number. -/
theorem validateCard_order_witness :
    validateCard 6 2025 "" = { valid := false, reason := some "Missing card number" } :=
  (validateCard_order 6 2025 "").1.1 (by decide)

/-- Claim C5: on a batch of non-blank lines run to completion,
processBatch fires the progress callback once per record, with
processed running 1, 2, ..., N (hence monotonically non-decreasing and
reaching N), and total equal to N in every snapshot. -/
theorem processBatch_progress (cm cy : Int) (rand : Nat → Bool) (v : ValidatorState)
    (cards : List String) (hv : v.isProcessing = false)
    (hb : ∀ c ∈ cards, trimJS c ≠ "") :
    ((processBatch cm cy rand none v cards).2.2.1.length = cards.length) ∧
    ((processBatch cm cy rand none v cards).2.2.1.map (fun s => s.processed) =
       List.range' 1 cards.length) ∧
    List.Chain' (fun a b => a ≤ b)
      ((processBatch cm cy rand none v cards).2.2.1.map (fun s => s.processed)) ∧
    (∀ s ∈ (processBatch cm cy rand none v cards).2.2.1, s.total = cards.length) ∧
    (∀ fin, (processBatch cm cy rand none v cards).1 = some fin →
       fin.processed = cards.length ∧ fin.total = cards.length) := by
  obtain ⟨r1, r2, r3, r4⟩ := runBatch_progress cm cy rand cards 0
    { total := cards.length, processed := 0, valid := 0, live := 0, dead := 0 } hb
  rw [processBatch, if_neg (by simp [hv])]
  refine ⟨?_, ?_, ?_, ?_, ?_⟩
  · show (runBatch cm cy rand none cards 0 _).2.1.length = cards.length
    have hlen := congrArg List.length r2
    simpa using hlen
  · simpa using r2
  · show List.Chain' _ ((runBatch cm cy rand none cards 0 _).2.1.map fun s => s.processed)
    rw [show ((runBatch cm cy rand none cards 0
        { total := cards.length, processed := 0, valid := 0, live := 0,
          dead := 0 }).2.1.map fun s => s.processed) = List.range' 1 cards.length by
      simpa using r2]
    exact chain'_le_range' cards.length 1
  · exact r3
  · intro fin hf
    have : fin = (runBatch cm cy rand none cards 0
        { total := cards.length, processed := 0, valid := 0, live := 0, dead := 0 }).1 := by
      have := hf
      simp at this
      exact this.symm
    rw [this, r1, r4]
    simp

/-- Witness for C5: a two-record batch produces processed counts 1
then 2. -/
theorem processBatch_progress_witness :
    ((processBatch 6 2025 (fun _ => true) none ⟨false, none⟩
        ["4111111111111111|12|2030|123", "foo"]).2.2.1.map (fun s => s.processed)) =
      List.range' 1 2 :=
  (processBatch_progress 6 2025 (fun _ => true) ⟨false, none⟩
    ["4111111111111111|12|2030|123", "foo"] rfl (by decide)).2.1

/-- Claim C6: calling processBatch while a batch is running is a no-op
returning null and leaves the validator state, including the in-flight
batch statistics, untouched. -/
theorem processBatch_reentrant (cm cy : Int) (rand : Nat → Bool) (stopAt : Option Nat)
    (v : ValidatorState) (cards : List String) (h : v.isProcessing = true) :
    processBatch cm cy rand stopAt v cards = (none, v, [], []) := by
  rw [processBatch, if_pos h]

/-- Witness for C6: a concrete busy validator with in-flight statistics
is returned unchanged. -/
theorem processBatch_reentrant_witness :
    processBatch 1 2025 (fun _ => false) none
        ⟨true, some ⟨5, 2, 1, 1, 0⟩⟩ ["4111111111111111|12|2030|123"] =
      (none, ⟨true, some ⟨5, 2, 1, 1, 0⟩⟩, [], []) :=
  processBatch_reentrant 1 2025 (fun _ => false) none
    ⟨true, some ⟨5, 2, 1, 1, 0⟩⟩ ["4111111111111111|12|2030|123"] rfl

/-- Claim C10: along any batch run, cancelled or not, every reported
snapshot and the final statistics satisfy live + dead = valid and
valid ≤ processed ≤ total. -/
theorem processBatch_counters (cm cy : Int) (rand : Nat → Bool) (stopAt : Option Nat)
    (v : ValidatorState) (cards : List String) (hv : v.isProcessing = false) :
    (∀ s ∈ (processBatch cm cy rand stopAt v cards).2.2.1, batchInv s) ∧
    (∀ fin, (processBatch cm cy rand stopAt v cards).1 = some fin → batchInv fin) := by
  obtain ⟨r1, r2⟩ := runBatch_inv cm cy rand stopAt cards 0
    { total := cards.length, processed := 0, valid := 0, live := 0, dead := 0 }
    ⟨rfl, le_rfl, Nat.zero_le _⟩ (by simp)
  rw [processBatch, if_neg (by simp [hv])]
  refine ⟨r2, ?_⟩
  intro fin hf
  have : fin = (runBatch cm cy rand stopAt cards 0
      { total := cards.length, processed := 0, valid := 0, live := 0, dead := 0 }).1 := by
    have := hf
    simp at this
    exact this.symm
  rw [this]
  exact r1

/-- Witness for C10: the final statistics of a concrete cancelled batch
satisfy the counter relations. -/
theorem processBatch_counters_witness :
    batchInv { total := 3, processed := 1, valid := 1, live := 0, dead := 1 } :=
  (processBatch_counters 6 2025 (fun _ => false) (some 0) ⟨false, none⟩
    ["4111111111111111|12|2030|123", "", "bad"] rfl).2
    { total := 3, processed := 1, valid := 1, live := 0, dead := 1 } (by decide)

end CCV
